import Mathlib

/-!
Verification development for the sprite-designer desktop application.

The repository's core logic lives in three TypeScript modules:
  * `apps/desktop/src/lib/grid.ts` — procedural seed-grid synthesis
    (`createSpriteGridDataUrl`);
  * `apps/desktop/src/lib/format.ts` — lineage queries (`latestChild`,
    `latestGenerateChild`, `safeResolution`);
  * `apps/desktop/src/App.tsx` — draft reconciliation (`resolveGenerateDraft`,
    `resolveBaseChild`, `previewRows`/`previewCols`);
  * `apps/desktop/src/components/SpriteSheetPlayer.tsx` — sprite-sheet playback
    (`toPositiveInt`, effective delay, decode staleness guard, frame geometry).

JavaScript numbers are modelled by `JSNum`: either NaN, a signed infinity, or a
finite value represented exactly as a rational.  The arithmetic used by the
embedded functions (floor, round, max/min, `||` defaulting, `??` defaulting,
division, multiplication) involves only values that float64 represents exactly,
so the rational model coincides with the source semantics on everything the
theorems below touch.  Canvas / raster primitives are host APIs (out of scope
per the data-flow boundary), so a grid render is modelled as the exact list of
drawing commands the code issues, and the PNG data-URL encoding is abstracted
as an injective constructor over that render.
-/

/-- Model of a JavaScript (IEEE-754 double) number: NaN, ±Infinity, or a finite
value (represented exactly as a rational; `-0` is identified with `0`). -/
inductive JSNum where
  | nan : JSNum
  | posInf : JSNum
  | negInf : JSNum
  | num : ℚ → JSNum
deriving DecidableEq, Repr

/-- `Number.isFinite`. -/
def JSNum.isFinite : JSNum → Bool
  | .num _ => true
  | _ => false

/-- JavaScript truthiness of a number: `NaN` and `0` are falsy, everything else
(including the infinities) is truthy. -/
def JSNum.truthy : JSNum → Bool
  | .nan => false
  | .num q => q ≠ 0
  | _ => true

/-- `a || b` on numbers: `b` when `a` is falsy, otherwise `a`. -/
def JSNum.orDefault (a b : JSNum) : JSNum :=
  if a.truthy then a else b

/-- The numeric `<=` comparison; any comparison with NaN is false. -/
def JSNum.jsLe : JSNum → JSNum → Bool
  | .nan, _ => false
  | _, .nan => false
  | .negInf, _ => true
  | _, .negInf => false
  | _, .posInf => true
  | .posInf, _ => false
  | .num a, .num b => a ≤ b

/-- `Math.max` on two arguments: NaN-propagating, otherwise the larger value. -/
def JSNum.jsMax (a b : JSNum) : JSNum :=
  if a = .nan ∨ b = .nan then .nan
  else if a.jsLe b then b else a

/-- `Math.min` on two arguments: NaN-propagating, otherwise the smaller value. -/
def JSNum.jsMin (a b : JSNum) : JSNum :=
  if a = .nan ∨ b = .nan then .nan
  else if a.jsLe b then a else b

/-- `Math.floor`. -/
def JSNum.floorJS : JSNum → JSNum
  | .nan => .nan
  | .posInf => .posInf
  | .negInf => .negInf
  | .num q => .num (q.floor : ℤ)

/-- `Math.round` (round half toward positive infinity, i.e. floor of `x + 1/2`). -/
def JSNum.jsRound : JSNum → JSNum
  | .nan => .nan
  | .posInf => .posInf
  | .negInf => .negInf
  | .num q => .num ((q + 1/2).floor : ℤ)

/-- JavaScript addition. -/
def JSNum.jsAdd : JSNum → JSNum → JSNum
  | .nan, _ => .nan
  | _, .nan => .nan
  | .posInf, .negInf => .nan
  | .negInf, .posInf => .nan
  | .posInf, _ => .posInf
  | _, .posInf => .posInf
  | .negInf, _ => .negInf
  | _, .negInf => .negInf
  | .num a, .num b => .num (a + b)

/-- JavaScript multiplication. -/
def JSNum.jsMul : JSNum → JSNum → JSNum
  | .nan, _ => .nan
  | _, .nan => .nan
  | .posInf, .posInf => .posInf
  | .posInf, .negInf => .negInf
  | .negInf, .posInf => .negInf
  | .negInf, .negInf => .posInf
  | .posInf, .num b => if b = 0 then .nan else if b < 0 then .negInf else .posInf
  | .num a, .posInf => if a = 0 then .nan else if a < 0 then .negInf else .posInf
  | .negInf, .num b => if b = 0 then .nan else if b < 0 then .posInf else .negInf
  | .num a, .negInf => if a = 0 then .nan else if a < 0 then .posInf else .negInf
  | .num a, .num b => .num (a * b)

/-- JavaScript division (`x / 0` is a signed infinity, `0 / 0` and `∞ / ∞`
are NaN, finite over infinite is `0`). -/
def JSNum.jsDiv : JSNum → JSNum → JSNum
  | .nan, _ => .nan
  | _, .nan => .nan
  | .posInf, .posInf => .nan
  | .posInf, .negInf => .nan
  | .negInf, .posInf => .nan
  | .negInf, .negInf => .nan
  | .posInf, .num b => if b < 0 then .negInf else .posInf
  | .negInf, .num b => if b < 0 then .posInf else .negInf
  | .num _, .posInf => .num 0
  | .num _, .negInf => .num 0
  | .num a, .num b =>
      if b = 0 then (if a = 0 then .nan else if a < 0 then .negInf else .posInf)
      else .num (a / b)

example : JSNum.jsMax (.num 1) JSNum.nan = JSNum.nan := by decide
example : JSNum.jsMax (.num 1) (.num (-3)) = .num 1 := by decide
example : JSNum.orDefault (.num 0) (.num 120) = .num 120 := by decide
example : JSNum.floorJS (.num (5/2)) = .num 2 := by with_unfolding_all rfl
example : JSNum.jsRound (.num (5/2)) = .num 3 := by with_unfolding_all rfl
example : JSNum.jsDiv (.num 1) JSNum.posInf = .num 0 := by decide

/- ## Data model (`packages/shared/types.ts`) -/

/-- `ChildType`: the two kinds of history node. -/
inductive ChildType where
  | generate : ChildType
  | edit : ChildType
deriving DecidableEq, Repr

/-- `ChildMode`. -/
inductive ChildMode where
  | sprite : ChildMode
  | normal : ChildMode
  | edit : ChildMode
deriving DecidableEq, Repr

/-- `Resolution`: the fixed set of output tiers. -/
inductive Resolution where
  | r1K : Resolution
  | r2K : Resolution
  | r4K : Resolution
deriving DecidableEq, Repr

/-- The deterministic content of a grid render produced by
`createSpriteGridDataUrl` (`lib/grid.ts`): the canvas dimensions plus every
drawing command the function issues before encoding.  `verticalXs` and
`horizontalYs` are the half-pixel-centred interior grid-line coordinates, in
the order the loops emit them (each vertical line runs from `(x, 0)` to
`(x, height)`, each horizontal line from `(0, y)` to `(width, y)`); the border
rectangle is the 1px-inset `rect(0.5, 0.5, width - 1, height - 1)`. -/
structure GridRenderData where
  width : JSNum
  height : JSNum
  strokeStyle : String
  lineWidth : JSNum
  borderX : JSNum
  borderY : JSNum
  borderW : JSNum
  borderH : JSNum
  verticalXs : List JSNum
  horizontalYs : List JSNum
deriving DecidableEq, Repr

/-- An encoded raster image passed around as a data URL.  Encoding is a host
raster primitive, abstracted as an injective constructor: `stored` is an
arbitrary string already held in `ChildInputs`, `png` is the result of
encoding a grid render produced by `createSpriteGridDataUrl`. -/
inductive DataUrl where
  | stored : String → DataUrl
  | png : GridRenderData → DataUrl
deriving DecidableEq, Repr

/-- `ChildInputs`: the optional, type/mode-dependent request fields.  Numeric
fields are JavaScript numbers and may hold any value the backend stored. -/
structure ChildInputs where
  rows : Option JSNum := none
  cols : Option JSNum := none
  objectDescription : Option String := none
  style : Option String := none
  cameraAngle : Option String := none
  promptText : Option String := none
  editPrompt : Option String := none
  baseChildId : Option String := none
  resolution : Option Resolution := none
  imagePriorDataUrl : Option DataUrl := none
  baseImagePath : Option String := none
deriving DecidableEq, Repr

/-- `ChildOutputs`.  The completion metadata and the `openrouter` snapshot are
opaque JSON payloads never consulted by the embedded functions and are
omitted. -/
structure ChildOutputs where
  text : Option String := none
  imagePaths : List String := []
  primaryImagePath : Option String := none
deriving DecidableEq, Repr

/-- `Child`: a single generation or edit result. -/
structure Child where
  id : String
  projectId : String := ""
  type : ChildType
  name : String := ""
  createdAt : String := ""
  mode : ChildMode
  inputs : ChildInputs := {}
  outputs : ChildOutputs := {}
deriving DecidableEq, Repr

/-- `Project`. -/
structure Project where
  id : String
  name : String := ""
  createdAt : String := ""
  updatedAt : String := ""
  children : List Child
deriving DecidableEq, Repr

/- ## Lineage queries (`apps/desktop/src/lib/format.ts`) -/

/-- `latestChild(children)`: `undefined` when the list is empty, otherwise
`children[children.length - 1]`. -/
def latestChild (children : List Child) : Option Child :=
  if children.length = 0 then none
  else children[children.length - 1]?

/-- `latestGenerateChild(children)`: scan from the last index downward and
return the first child whose `type` is `"generate"`; `undefined` if none. -/
def latestGenerateChild (children : List Child) : Option Child :=
  children.reverse.find? fun child => decide (child.type = ChildType.generate)

/-- `safeResolution(value)`: `value ?? "1K"`. -/
def safeResolution (value : Option Resolution) : Resolution :=
  value.getD Resolution.r1K

/- ## Seed-grid synthesis (`apps/desktop/src/lib/grid.ts`) -/

/-- `SIZE_BY_RESOLUTION`. -/
def sizeByResolution : Resolution → ℚ
  | .r1K => 1024
  | .r2K => 2048
  | .r4K => 4096

/-- Number of iterations of a JavaScript loop `for (i = 1; i < bound; i += 1)`:
`none` when the loop never terminates.  The counter is a float64: it walks the
exactly-representable integers `1, 2, …` but `i += 1` saturates at `2^53`
(`2^53 + 1` rounds back to `2^53`), so the loop diverges not only for
`bound = +∞` but for every finite `bound > 2^53`; for `bound ≤ 2^53` it
terminates after one iteration per positive integer strictly below `bound`
(`NaN` and `-∞` bounds fail the comparison immediately: zero iterations). -/
def jsLoopCount (bound : JSNum) : Option ℕ :=
  match bound with
  | .posInf => none
  | .num q => if (2 ^ 53 : ℚ) < q then none else some (q.ceil - 1).toNat
  | _ => some 0

/-- The dimension sanitizer of `createSpriteGridDataUrl`:
`Math.max(1, Math.floor(value || 1))`. -/
def gridSafeDim (value : JSNum) : JSNum :=
  JSNum.jsMax (.num 1) (JSNum.floorJS (JSNum.orDefault value (.num 1)))

/-- `createSpriteGridDataUrl(rows, cols, resolution)` (`lib/grid.ts`): sanitize
`rows`/`cols` with `Math.max(1, Math.floor(value || 1))`, compute the output
dimensions from the aspect ratio and the tier's long edge, then stroke a
1px-inset border plus interior grid lines at rounded half-pixel coordinates.
The result is the full drawing-command description of the produced raster
(`GridRenderData`); `none` models the loop divergence that occurs in the
source when a sanitized dimension is `+∞` or a finite value above `2^53`,
where the float64 loop counter saturates.  The `getContext` failure branch
(returning `""`) is a host-surface failure outside the model: the drawing
surface is always available here. -/
def createSpriteGridDataUrl (rows cols : JSNum) (resolution : Resolution) : Option GridRenderData :=
  let safeRows := gridSafeDim rows
  let safeCols := gridSafeDim cols
  let ratio := JSNum.jsDiv safeCols safeRows
  let longEdge : JSNum := .num (sizeByResolution resolution)
  let width :=
    if JSNum.jsLe (.num 1) ratio then longEdge
    else JSNum.jsMax (.num 256) (JSNum.jsRound (JSNum.jsMul longEdge ratio))
  let height :=
    if JSNum.jsLe (.num 1) ratio then JSNum.jsMax (.num 256) (JSNum.jsRound (JSNum.jsDiv longEdge ratio))
    else longEdge
  match jsLoopCount safeCols, jsLoopCount safeRows with
  | some colIter, some rowIter =>
      some
        { width := width
          height := height
          strokeStyle := "rgba(0,0,0,0.9)"
          lineWidth := JSNum.jsMax (.num 1) (JSNum.jsRound (JSNum.jsDiv (JSNum.jsMin width height) (.num 512)))
          borderX := .num (1/2)
          borderY := .num (1/2)
          borderW := JSNum.jsAdd width (.num (-1))
          borderH := JSNum.jsAdd height (.num (-1))
          verticalXs := (List.range colIter).map fun k =>
            JSNum.jsAdd (JSNum.jsRound (JSNum.jsDiv (JSNum.jsMul (.num (k + 1 : ℕ)) width) safeCols)) (.num (1/2))
          horizontalYs := (List.range rowIter).map fun k =>
            JSNum.jsAdd (JSNum.jsRound (JSNum.jsDiv (JSNum.jsMul (.num (k + 1 : ℕ)) height) safeRows)) (.num (1/2)) }
  | _, _ => none

example : jsLoopCount (.num 2) = some 1 := by with_unfolding_all rfl
example : jsLoopCount JSNum.posInf = none := rfl

/- ## Draft reconciliation (`apps/desktop/src/App.tsx`) -/

/-- `GenerateDraft` (`lib/types.ts`): the editable generate-form state. -/
structure GenerateDraft where
  name : String
  spriteMode : Bool
  rows : JSNum
  cols : JSNum
  objectDescription : String
  style : String
  cameraAngle : String
  promptText : String
  resolution : Resolution
  imagePriorDataUrl : Option DataUrl
deriving DecidableEq, Repr

/-- `createDefaultGenerateDraft` (`App.tsx`): the fresh-selection draft
(sprite mode on, 4×4, tier 1K, synthesized seed).  The only override the code
ever passes is `name`, taken here as an explicit argument (`""` at the
no-override call sites).  `Option` propagates the divergence case of the grid
synthesizer, which cannot occur for the fixed 4×4 arguments. -/
def createDefaultGenerateDraft (name : String) : Option GenerateDraft :=
  (createSpriteGridDataUrl (.num 4) (.num 4) Resolution.r1K).map fun g =>
    { name := name
      spriteMode := true
      rows := .num 4
      cols := .num 4
      objectDescription := ""
      style := ""
      cameraAngle := ""
      promptText := ""
      resolution := Resolution.r1K
      imagePriorDataUrl := some (DataUrl.png g) }

/-- The generate-source selection in `resolveGenerateDraft`:
`selectedChild?.type === "generate" ? selectedChild : latestGenerateChild(project.children)`. -/
def generateSourceOf (project : Project) (selectedChild : Option Child) : Option Child :=
  match selectedChild with
  | some child => if child.type = ChildType.generate then some child else latestGenerateChild project.children
  | none => latestGenerateChild project.children

/-- `Math.max(1, generateSource.inputs.rows ?? 4)` (`App.tsx` line 67). -/
def draftRows (generateSource : Child) : JSNum :=
  JSNum.jsMax (.num 1) (generateSource.inputs.rows.getD (.num 4))

/-- `Math.max(1, generateSource.inputs.cols ?? 4)` (`App.tsx` line 68). -/
def draftCols (generateSource : Child) : JSNum :=
  JSNum.jsMax (.num 1) (generateSource.inputs.cols.getD (.num 4))

/-- JavaScript falsiness of an optional data URL (`!imagePriorDataUrl`):
absent, or present but the empty string. -/
def isFalsyDataUrl : Option DataUrl → Bool
  | none => true
  | some (.stored s) => s = ""
  | some (.png _) => false

/-- `resolveGenerateDraft(project, selectedChild)` (`App.tsx` lines 58–88).
`none` models the divergence of the seed synthesis when the resolved
rows/cols are `+∞`. -/
def resolveGenerateDraft (project : Project) (selectedChild : Option Child) : Option GenerateDraft :=
  match generateSourceOf project selectedChild with
  | none => createDefaultGenerateDraft project.name
  | some generateSource =>
    let spriteMode := generateSource.mode = ChildMode.sprite
    let rows := draftRows generateSource
    let cols := draftCols generateSource
    let resolution := safeResolution generateSource.inputs.resolution
    let stored := generateSource.inputs.imagePriorDataUrl
    let imagePriorDataUrl : Option (Option DataUrl) :=
      if spriteMode ∧ isFalsyDataUrl stored then
        (createSpriteGridDataUrl rows cols resolution).map fun g => some (DataUrl.png g)
      else some stored
    imagePriorDataUrl.map fun imagePriorDataUrl =>
      { name := project.name
        spriteMode := spriteMode
        rows := rows
        cols := cols
        objectDescription := (generateSource.inputs.objectDescription.getD "")
        style := (generateSource.inputs.style.getD "")
        cameraAngle := (generateSource.inputs.cameraAngle.getD "")
        promptText := (generateSource.inputs.promptText.getD "")
        resolution := resolution
        imagePriorDataUrl := imagePriorDataUrl }

/-- `resolveBaseChild(candidate)` from the `baseChildForEdit` memo
(`App.tsx` lines 224–239), with the enclosing `selectedProject` made an
explicit argument. -/
def resolveBaseChild (project : Project) (candidate : Option Child) : Option Child :=
  match candidate with
  | none => none
  | some candidate =>
    if candidate.type ≠ ChildType.edit then some candidate
    else
      match candidate.inputs.baseChildId with
      | none => some candidate
      | some baseChildId =>
        if baseChildId = "" then some candidate
        else (project.children.find? fun child => decide (child.id = baseChildId)).getD candidate

/-- `previewRows` (`App.tsx` line 494):
`Math.max(1, previewChild?.inputs.rows ?? 1)`. -/
def previewRows (previewChild : Option Child) : JSNum :=
  JSNum.jsMax (.num 1) ((previewChild.bind fun child => child.inputs.rows).getD (.num 1))

/-- `previewCols` (`App.tsx` line 495):
`Math.max(1, previewChild?.inputs.cols ?? 1)`. -/
def previewCols (previewChild : Option Child) : JSNum :=
  JSNum.jsMax (.num 1) ((previewChild.bind fun child => child.inputs.cols).getD (.num 1))

/- ## Sprite-sheet playback (`apps/desktop/src/components/SpriteSheetPlayer.tsx`) -/

/-- `toPositiveInt(value, fallback)`: the fallback when `value` is not finite,
otherwise `Math.max(1, Math.floor(value))`. -/
def toPositiveInt (value fallback : JSNum) : JSNum :=
  if JSNum.isFinite value then JSNum.jsMax (.num 1) (JSNum.floorJS value) else fallback

/-- `effectiveDelay`: `Math.max(16, Math.floor(frameDelayMs || 120))`. -/
def effectiveDelay (frameDelayMs : JSNum) : JSNum :=
  JSNum.jsMax (.num 16) (JSNum.floorJS (JSNum.orDefault frameDelayMs (.num 120)))

/-- A decoded sprite-sheet image, tagged with the `src` it was decoded from
and carrying its natural pixel dimensions. -/
structure DecodedImage where
  src : String
  naturalWidth : ℕ
  naturalHeight : ℕ
deriving DecidableEq, Repr

/-- The animation-timer effect (`SpriteSheetPlayer.tsx` lines 68–78): no timer
when no image is decoded or `totalFrames <= 1`; otherwise an interval armed
with the effective delay.  `some d` = a timer armed with period `d`. -/
def animationTimer (image : Option DecodedImage) (totalFrames : ℕ) (frameDelayMs : JSNum) : Option JSNum :=
  match image with
  | none => none
  | some _ => if totalFrames ≤ 1 then none else some (effectiveDelay frameDelayMs)

/-- The decode-relevant rendering state of a mounted `SpriteSheetPlayer`:
the list of `src` values requested so far (most recent last — the decode
started by effect run `e` is identified by its epoch `e`, the index into this
list), the active decoded image, and the surfaced load error. -/
structure PlayerState where
  requests : List String
  image : Option DecodedImage
  loadError : Option String
deriving DecidableEq, Repr

/-- The state of the player before any `src` has been supplied. -/
def initPlayerState : PlayerState :=
  { requests := [], image := none, loadError := none }

/-- Events observable by the decode effect: a `src` change (the effect body
re-runs: clears image and error, starts a decode at a fresh epoch, and the
cleanup of the previous run sets its `disposed` flag), or the completion —
successful or failed — of the decode started at a given epoch. -/
inductive PlayerEvent where
  | changeSrc : String → PlayerEvent
  | loadSuccess : ℕ → DecodedImage → PlayerEvent
  | loadFailure : ℕ → PlayerEvent
deriving DecidableEq, Repr

/-- One step of the decode state machine (`SpriteSheetPlayer.tsx` lines
40–66).  A completion for epoch `e` finds `disposed = true` — and is ignored —
exactly when a later `src` change has re-run the effect, i.e. when `e` is no
longer the index of the most recent request. -/
def stepPlayer (s : PlayerState) : PlayerEvent → PlayerState
  | .changeSrc src =>
      { requests := s.requests ++ [src], image := none, loadError := none }
  | .loadSuccess epoch img =>
      if epoch + 1 = s.requests.length then { s with image := some img } else s
  | .loadFailure epoch =>
      if epoch + 1 = s.requests.length then { s with loadError := some "Failed to load sprite sheet image." } else s

/-- Run a sequence of events. -/
def runPlayer (s : PlayerState) (events : List PlayerEvent) : PlayerState :=
  events.foldl stepPlayer s

/-- Well-formedness of an event sequence from a given state: a completion for
epoch `e` reports the image decoded from the `src` of request `e` (the decode
the effect run `e` itself started).  `src` changes and failures are
unconstrained. -/
def ValidFrom (s : PlayerState) : List PlayerEvent → Prop
  | [] => True
  | event :: rest =>
      (match event with
       | .loadSuccess epoch img => s.requests[epoch]? = some img.src
       | _ => True) ∧ ValidFrom (stepPlayer s event) rest

/-- The source rectangle blitted by the drawing effect (`SpriteSheetPlayer.tsx`
lines 85–99), over the sanitized `safeRows`/`safeCols` and the decoded image's
natural dimensions (all naturals: `toPositiveInt` yields positive integers and
`naturalWidth`/`naturalHeight` are nonnegative integers). -/
structure DrawRect where
  frameX : ℕ
  frameY : ℕ
  frameWidth : ℕ
  frameHeight : ℕ
deriving DecidableEq, Repr

/-- The drawing-effect geometry: `frameWidth/Height = max(1, floor(natural /
safe))`, `frame = frameIndex % totalFrames`, source origin
`((frame % safeCols) * frameWidth, floor(frame / safeCols) * frameHeight)`. -/
def drawFrameRect (imageWidth imageHeight safeRows safeCols frameIndex : ℕ) : DrawRect :=
  let frameWidth := max 1 (imageWidth / safeCols)
  let frameHeight := max 1 (imageHeight / safeRows)
  let totalFrames := safeRows * safeCols
  let frame := frameIndex % totalFrames
  { frameX := (frame % safeCols) * frameWidth
    frameY := (frame / safeCols) * frameHeight
    frameWidth := frameWidth
    frameHeight := frameHeight }

/- ## Concrete history fixtures used by the testable-property claims -/

/-- Fixture: a pure generation `A`. -/
def childA : Child :=
  { id := "A", type := ChildType.generate, mode := ChildMode.sprite }

/-- Fixture: `Edit B(base=A)`. -/
def childB : Child :=
  { id := "B", type := ChildType.edit, mode := ChildMode.edit,
    inputs := { baseChildId := some "A" } }

/-- Fixture: a second pure generation `C`. -/
def childC : Child :=
  { id := "C", type := ChildType.generate, mode := ChildMode.sprite }

/-- Fixture: `Edit D(base=C)`. -/
def childD : Child :=
  { id := "D", type := ChildType.edit, mode := ChildMode.edit,
    inputs := { baseChildId := some "C" } }

/-- Fixture: `Edit E(base=B)` — an edit of an edit. -/
def childE : Child :=
  { id := "E", type := ChildType.edit, mode := ChildMode.edit,
    inputs := { baseChildId := some "B" } }

/-- Fixture: `Edit F(base="unknown-id")` — a dangling base reference. -/
def childF : Child :=
  { id := "F", type := ChildType.edit, mode := ChildMode.edit,
    inputs := { baseChildId := some "unknown-id" } }

/-- Fixture project holding `[Generate A, Edit B(base=A), Edit E(base=B)]`. -/
def projectABE : Project :=
  { id := "p1", children := [childA, childB, childE] }

/-- Fixture project holding `[Generate A, Edit F(base="unknown-id")]`. -/
def projectAF : Project :=
  { id := "p2", children := [childA, childF] }

/- ## Helper lemmas -/

/-- `Math.max` on two finite values is the numeric maximum. -/
theorem jsMax_num_num (a b : ℚ) : JSNum.jsMax (.num a) (.num b) = .num (max a b) := by
  rw [max_def]
  by_cases h : a ≤ b
  · simp [JSNum.jsMax, JSNum.jsLe, h]
  · simp [JSNum.jsMax, JSNum.jsLe, h]

/-- `latestChild` computes `List.getLast?`. -/
theorem latestChild_eq_getLast? (children : List Child) :
    latestChild children = children.getLast? := by
  cases children with
  | nil => rfl
  | cons c cs => simp [latestChild, List.getLast?_eq_getElem?]

/-- `latestGenerateChild` returns `some c` exactly when `c` is a generate-type
element such that everything after it is non-generate. -/
theorem latestGenerateChild_eq_some_iff (children : List Child) (c : Child) :
    latestGenerateChild children = some c ↔
      c.type = ChildType.generate ∧
      ∃ pre suf, children = pre ++ c :: suf ∧
        ∀ d ∈ suf, d.type ≠ ChildType.generate := by
  unfold latestGenerateChild
  rw [List.find?_eq_some]
  simp only [decide_eq_true_eq, Bool.not_eq_true', decide_eq_false_iff_not]
  constructor
  · rintro ⟨hc, as, bs, hrev, has⟩
    refine ⟨hc, bs.reverse, as.reverse, ?_, ?_⟩
    · have := congrArg List.reverse hrev
      simpa using this
    · intro d hd
      exact has d (by simpa using hd)
  · rintro ⟨hc, pre, suf, heq, hsuf⟩
    refine ⟨hc, suf.reverse, pre.reverse, ?_, ?_⟩
    · subst heq
      simp
    · intro d hd
      exact hsuf d (by simpa using hd)

/- ## Claim C2 -/

/-- Claim C2: `latestChild` returns the last element of the sequence and is
absent exactly when the sequence is empty; `latestGenerateChild` returns the
generate-typed element with the greatest index (no later element is
generate-typed) and is absent exactly when no generate element exists; on
`[Generate A, Edit B(base=A), Generate C, Edit D(base=C)]` the results are
`C` and `D` respectively. -/
theorem latestChild_latestGenerateChild_spec :
    (∀ children : List Child, latestChild children = children.getLast?) ∧
    (∀ children : List Child, latestChild children = none ↔ children = []) ∧
    (∀ children : List Child,
      latestGenerateChild children = none ↔ ∀ c ∈ children, c.type ≠ ChildType.generate) ∧
    (∀ (children : List Child) (c : Child),
      latestGenerateChild children = some c ↔
        c.type = ChildType.generate ∧
        ∃ pre suf, children = pre ++ c :: suf ∧
          ∀ d ∈ suf, d.type ≠ ChildType.generate) ∧
    latestGenerateChild [childA, childB, childC, childD] = some childC ∧
    latestChild [childA, childB, childC, childD] = some childD := by
  refine ⟨latestChild_eq_getLast?, ?_, ?_, latestGenerateChild_eq_some_iff, by decide, by decide⟩
  · intro children
    rw [latestChild_eq_getLast?]
    cases children <;> simp
  · intro children
    unfold latestGenerateChild
    rw [List.find?_eq_none]
    simp

/-- Witness for C2: the characterizations applied at the concrete fixture
history. -/
theorem latestChild_latestGenerateChild_spec_witness :
    latestChild [childA, childB] = [childA, childB].getLast? :=
  latestChild_latestGenerateChild_spec.1 [childA, childB]

/- ## Claim C1 -/

/-- Fixture: a child whose id is the empty string. -/
def childEmptyId : Child :=
  { id := "", type := ChildType.generate, mode := ChildMode.normal }

/-- Fixture: an edit child whose `baseChildId` is the empty string. -/
def childEmptyBase : Child :=
  { id := "e1", type := ChildType.edit, mode := ChildMode.edit,
    inputs := { baseChildId := some "" } }

/-- Fixture project containing a child with the empty id together with the
edit child referencing it via an empty-string `baseChildId`. -/
def projectEmptyId : Project :=
  { id := "p3", children := [childEmptyId, childEmptyBase] }

/-- Counterexample to C1 as stated: `childEmptyBase` is an Edit whose
`baseChildId` (the empty string) does match a child of the project
(`childEmptyId` has id `""`), yet resolution returns the candidate itself and
not the matching child — JavaScript falsiness short-circuits the lookup before
it happens, contradicting the claimed "when the baseChildId matches a child of
the project, that child is the base". -/
theorem resolveBaseChild_counterexample :
    childEmptyBase.type = ChildType.edit ∧
    childEmptyBase.inputs.baseChildId = some "" ∧
    (projectEmptyId.children.find? fun child => decide (child.id = "")) = some childEmptyId ∧
    resolveBaseChild projectEmptyId (some childEmptyBase) = some childEmptyBase ∧
    childEmptyBase ≠ childEmptyId := by
  refine ⟨rfl, rfl, by decide, by decide, by decide⟩

/-- Claim C1 (amended): the result is absent exactly when the candidate is
absent; a non-Edit candidate is its own base; an Edit candidate with an absent
— or, by JavaScript falsiness, empty-string — `baseChildId` is its own base; an
Edit candidate whose nonempty `baseChildId` matches no child id falls back to
the candidate; and a nonempty `baseChildId` matching a child makes that child
the base, with no further hop.  In particular resolving `E` in
`[Generate A, Edit B(base=A), Edit E(base=B)]` yields `B`, not `A`, and the
dangling `Edit F(base="unknown-id")` resolves to `F`.  The function is total:
no input fails. -/
theorem resolveBaseChild_case_analysis :
    (∀ (project : Project) (candidate : Option Child),
      resolveBaseChild project candidate = none ↔ candidate = none) ∧
    (∀ (project : Project) (candidate : Child),
      (candidate.type ≠ ChildType.edit →
        resolveBaseChild project (some candidate) = some candidate) ∧
      (candidate.type = ChildType.edit →
        ((candidate.inputs.baseChildId = none ∨ candidate.inputs.baseChildId = some "") →
          resolveBaseChild project (some candidate) = some candidate) ∧
        (∀ b, candidate.inputs.baseChildId = some b → b ≠ "" →
          ((project.children.find? fun child => decide (child.id = b)) = none →
            resolveBaseChild project (some candidate) = some candidate) ∧
          (∀ base, (project.children.find? fun child => decide (child.id = b)) = some base →
            resolveBaseChild project (some candidate) = some base)))) ∧
    resolveBaseChild projectABE (some childE) = some childB ∧
    resolveBaseChild projectAF (some childF) = some childF := by
  refine ⟨?_, ?_, by decide, by decide⟩
  · intro project candidate
    cases candidate with
    | none => simp [resolveBaseChild]
    | some c =>
      simp only [resolveBaseChild]
      constructor
      · intro h
        by_cases ht : c.type ≠ ChildType.edit
        · simp [ht] at h
        · simp only [ht, if_false] at h
          cases hb : c.inputs.baseChildId with
          | none => simp [hb] at h
          | some b =>
            simp only [hb] at h
            by_cases hbe : b = ""
            · simp [hbe] at h
            · simp only [hbe, if_false] at h
              cases hf : project.children.find? fun child => decide (child.id = b) <;>
                simp [hf] at h
      · intro h
        cases h
  · intro project candidate
    constructor
    · intro ht
      simp [resolveBaseChild, ht]
    · intro ht
      constructor
      · rintro (hb | hb) <;> simp [resolveBaseChild, ht, hb]
      · intro b hb hbe
        constructor
        · intro hf
          simp [resolveBaseChild, ht, hb, hbe, hf]
        · intro base hf
          simp [resolveBaseChild, ht, hb, hbe, hf]

/-- Witness for C1 (amended): the non-Edit branch applied to the concrete
generate child `A`. -/
theorem resolveBaseChild_case_analysis_witness :
    resolveBaseChild projectAF (some childA) = some childA :=
  (resolveBaseChild_case_analysis.2.1 projectAF childA).1 (by decide)

/- ## Claim C3 -/

/-- Counterexample to C3 as stated: a requested delay of `0` is falsy, so the
source expression `frameDelayMs || 120` substitutes the default `120` before
the floor/max — the effective period is `120`, not the claimed `16`. -/
theorem effectiveDelay_zero_counterexample :
    effectiveDelay (.num 0) = .num 120 ∧ JSNum.num (120 : ℚ) ≠ .num 16 := by
  refine ⟨by decide, by decide⟩

/-- Claim C3 (amended): the effective period is
`max(16, floor(frameDelayMs || 120))`: it equals `max(16, floor(d))` for every
finite nonzero requested delay `d`, a requested delay of `0` or `NaN` falls
back to the default and yields `120`, any negative requested delay yields
exactly `16`, and no animation timer is armed when `totalFrames ≤ 1` or when
no image has been decoded. -/
theorem effectiveDelay_timer_spec :
    (∀ q : ℚ, q ≠ 0 →
      effectiveDelay (.num q) = JSNum.jsMax (.num 16) (JSNum.floorJS (.num q))) ∧
    effectiveDelay (.num 0) = .num 120 ∧
    effectiveDelay JSNum.nan = .num 120 ∧
    (∀ q : ℚ, q < 0 → effectiveDelay (.num q) = .num 16) ∧
    (∀ (image : Option DecodedImage) (totalFrames : ℕ) (frameDelayMs : JSNum),
      totalFrames ≤ 1 → animationTimer image totalFrames frameDelayMs = none) ∧
    (∀ (totalFrames : ℕ) (frameDelayMs : JSNum),
      animationTimer none totalFrames frameDelayMs = none) ∧
    (∀ (img : DecodedImage) (totalFrames : ℕ) (frameDelayMs : JSNum),
      1 < totalFrames →
      animationTimer (some img) totalFrames frameDelayMs = some (effectiveDelay frameDelayMs)) := by
  have hfin : ∀ q : ℚ, q ≠ 0 →
      effectiveDelay (.num q) = JSNum.jsMax (.num 16) (JSNum.floorJS (.num q)) := by
    intro q hq
    simp [effectiveDelay, JSNum.orDefault, JSNum.truthy, hq]
  refine ⟨hfin, by decide, by decide, ?_, ?_, ?_, ?_⟩
  · intro q hq
    rw [hfin q (ne_of_lt hq)]
    show JSNum.jsMax (.num 16) (.num (q.floor : ℚ)) = .num 16
    rw [jsMax_num_num]
    have hfloor : q.floor ≤ 0 := by
      by_contra hpos
      have h1 : (1 : ℤ) ≤ q.floor := by omega
      have : (1 : ℚ) ≤ q := Rat.le_floor.mp h1
      linarith
    have : (q.floor : ℚ) ≤ 16 := by
      have : (q.floor : ℚ) ≤ 0 := by exact_mod_cast hfloor
      linarith
    rw [max_eq_left this]
  · intro image totalFrames frameDelayMs h
    cases image with
    | none => rfl
    | some img => simp [animationTimer, h]
  · intro totalFrames frameDelayMs
    rfl
  · intro img totalFrames frameDelayMs h
    simp [animationTimer, Nat.not_le_of_lt h]

/-- Witness for C3 (amended): the finite-nonzero branch applied at a requested
delay of 500 ms. -/
theorem effectiveDelay_timer_spec_witness :
    effectiveDelay (.num 500) = JSNum.jsMax (.num 16) (JSNum.floorJS (.num 500)) :=
  effectiveDelay_timer_spec.1 500 (by norm_num)

/- ## Claim C4 -/

/-- Claim C4: the per-frame source geometry of the drawing effect satisfies
`frameWidth = max(1, floor(imageWidth / cols))`,
`frameHeight = max(1, floor(imageHeight / rows))`, and for the drawn frame
`f = frameIndex % totalFrames` the source origin is
`x = (f % cols) * frameWidth`, `y = floor(f / cols) * frameHeight` (so for any
in-range frame index the claimed formulas hold verbatim); a 2048×1024 sheet
with rows=2, cols=4 maps frame 5 to `x=512, y=512, w=512, h=512`. -/
theorem drawFrameRect_geometry :
    (∀ imageWidth imageHeight safeRows safeCols frameIndex : ℕ,
      1 ≤ safeRows → 1 ≤ safeCols →
      (drawFrameRect imageWidth imageHeight safeRows safeCols frameIndex).frameWidth
          = max 1 (imageWidth / safeCols) ∧
      (drawFrameRect imageWidth imageHeight safeRows safeCols frameIndex).frameHeight
          = max 1 (imageHeight / safeRows) ∧
      (drawFrameRect imageWidth imageHeight safeRows safeCols frameIndex).frameX
          = (frameIndex % (safeRows * safeCols) % safeCols) * max 1 (imageWidth / safeCols) ∧
      (drawFrameRect imageWidth imageHeight safeRows safeCols frameIndex).frameY
          = (frameIndex % (safeRows * safeCols) / safeCols) * max 1 (imageHeight / safeRows)) ∧
    (∀ imageWidth imageHeight safeRows safeCols f : ℕ,
      f < safeRows * safeCols →
      (drawFrameRect imageWidth imageHeight safeRows safeCols f).frameX
          = (f % safeCols) * max 1 (imageWidth / safeCols) ∧
      (drawFrameRect imageWidth imageHeight safeRows safeCols f).frameY
          = (f / safeCols) * max 1 (imageHeight / safeRows)) ∧
    drawFrameRect 2048 1024 2 4 5 =
      { frameX := 512, frameY := 512, frameWidth := 512, frameHeight := 512 } := by
  refine ⟨?_, ?_, by decide⟩
  · intro imageWidth imageHeight safeRows safeCols frameIndex _ _
    exact ⟨rfl, rfl, rfl, rfl⟩
  · intro imageWidth imageHeight safeRows safeCols f hf
    have hmod : f % (safeRows * safeCols) = f := Nat.mod_eq_of_lt hf
    constructor
    · show f % (safeRows * safeCols) % safeCols * max 1 (imageWidth / safeCols)
          = f % safeCols * max 1 (imageWidth / safeCols)
      rw [hmod]
    · show f % (safeRows * safeCols) / safeCols * max 1 (imageHeight / safeRows)
          = f / safeCols * max 1 (imageHeight / safeRows)
      rw [hmod]

/-- Witness for C4: the in-range-index formulas applied to frame 5 of the
2048×1024, 2×4 sheet. -/
theorem drawFrameRect_geometry_witness :
    (drawFrameRect 2048 1024 2 4 5).frameX = 5 % 4 * max 1 (2048 / 4) :=
  (drawFrameRect_geometry.2.1 2048 1024 2 4 5 (by decide)).1

/- ## Claim C5 -/

/-- One decode event preserves the rendering-state invariant "the active
image, when present, was decoded from the most recently requested src". -/
theorem stepPlayer_preserves_image_src (s : PlayerState) (event : PlayerEvent)
    (hok : match event with
           | .loadSuccess epoch img => s.requests[epoch]? = some img.src
           | _ => True)
    (hInv : ∀ img, s.image = some img → s.requests.getLast? = some img.src) :
    ∀ img, (stepPlayer s event).image = some img →
      (stepPlayer s event).requests.getLast? = some img.src := by
  intro img h
  cases event with
  | changeSrc src => simp [stepPlayer] at h
  | loadFailure epoch =>
      by_cases he : epoch + 1 = s.requests.length
      · simp only [stepPlayer, if_pos he] at h ⊢
        exact hInv img h
      · simp only [stepPlayer, if_neg he] at h ⊢
        exact hInv img h
  | loadSuccess epoch i =>
      by_cases he : epoch + 1 = s.requests.length
      · simp only [stepPlayer, if_pos he] at h ⊢
        have himg : i = img := by injection h
        subst himg
        rw [List.getLast?_eq_getElem?]
        have hidx : s.requests.length - 1 = epoch := by omega
        rw [hidx]
        exact hok
      · simp only [stepPlayer, if_neg he] at h ⊢
        exact hInv img h

/-- Over any well-formed event sequence, a state satisfying the invariant
"the active image matches the most recent src" still satisfies it after the
run. -/
theorem runPlayer_valid_image_src (events : List PlayerEvent) :
    ∀ s : PlayerState, ValidFrom s events →
      (∀ img, s.image = some img → s.requests.getLast? = some img.src) →
      ∀ img, (runPlayer s events).image = some img →
        (runPlayer s events).requests.getLast? = some img.src := by
  induction events with
  | nil =>
      intro s _ hInv
      exact hInv
  | cons event rest ih =>
      intro s hValid hInv
      obtain ⟨hok, hrest⟩ := hValid
      exact ih (stepPlayer s event) hrest (stepPlayer_preserves_image_src s event hok hInv)

/-- Claim C5: a decode completion whose epoch is not the most recent request is
discarded without touching the rendering state (neither image nor error), and
along every well-formed execution from the initial state the active image —
whenever one is present — was decoded from the most recently requested `src`:
last-requested-source wins regardless of completion order. -/
theorem stale_decode_never_applied :
    (∀ (s : PlayerState) (epoch : ℕ) (img : DecodedImage),
      epoch + 1 ≠ s.requests.length → stepPlayer s (.loadSuccess epoch img) = s) ∧
    (∀ (s : PlayerState) (epoch : ℕ),
      epoch + 1 ≠ s.requests.length → stepPlayer s (.loadFailure epoch) = s) ∧
    (∀ events : List PlayerEvent, ValidFrom initPlayerState events →
      ∀ img, (runPlayer initPlayerState events).image = some img →
        (runPlayer initPlayerState events).requests.getLast? = some img.src) := by
  refine ⟨?_, ?_, ?_⟩
  · intro s epoch img h
    simp [stepPlayer, h]
  · intro s epoch h
    simp [stepPlayer, h]
  · intro events hValid
    refine runPlayer_valid_image_src events initPlayerState hValid ?_
    intro img h
    simp [initPlayerState] at h

/-- Witness for C5: in the concrete run where `src` was changed to `"a"` and
then `"b"`, the late completion of the decode started for `"a"` (epoch 0) is
a no-op on the state. -/
theorem stale_decode_never_applied_witness :
    stepPlayer { requests := ["a", "b"], image := none, loadError := none }
        (.loadSuccess 0 { src := "a", naturalWidth := 8, naturalHeight := 8 })
      = { requests := ["a", "b"], image := none, loadError := none } :=
  stale_decode_never_applied.1
    { requests := ["a", "b"], image := none, loadError := none } 0
    { src := "a", naturalWidth := 8, naturalHeight := 8 } (by decide)

/- ## Claim C6 -/

/-- `gridSafeDim` on a nonzero finite value is `max(1, floor(value))`. -/
theorem gridSafeDim_num (q : ℚ) (hq : q ≠ 0) :
    gridSafeDim (.num q) = .num ((max 1 q.floor : ℤ) : ℚ) := by
  simp only [gridSafeDim, JSNum.orDefault, JSNum.truthy]
  rw [if_pos (by simpa using hq)]
  show JSNum.jsMax (.num 1) (.num (q.floor : ℚ)) = _
  rw [jsMax_num_num]
  push_cast
  rfl

/-- `gridSafeDim` always yields a finite value on finite input. -/
theorem gridSafeDim_finite (q : ℚ) : ∃ x : ℚ, gridSafeDim (.num q) = .num x := by
  by_cases hq : q = 0
  · subst hq
    exact ⟨1, by with_unfolding_all rfl⟩
  · exact ⟨_, gridSafeDim_num q hq⟩

/-- Counterexample to C6 as stated: `+Infinity` is a non-finite rows value that
is not clamped to 1 — `max(1, floor(Infinity || 1)) = Infinity` — so
`createSpriteGridDataUrl(Infinity, 1, "1K")` does not behave as
`createSpriteGridDataUrl(1, 1, "1K")`: the interior-line loop bound becomes
`+∞` and the call diverges (modelled as `none`), while the clamped call
produces a render. -/
theorem createSpriteGridDataUrl_posInf_counterexample :
    gridSafeDim JSNum.posInf = JSNum.posInf ∧
    createSpriteGridDataUrl JSNum.posInf (.num 1) Resolution.r1K = none ∧
    (createSpriteGridDataUrl (.num 1) (.num 1) Resolution.r1K).isSome = true ∧
    createSpriteGridDataUrl JSNum.posInf (.num 1) Resolution.r1K ≠
      createSpriteGridDataUrl (.num 1) (.num 1) Resolution.r1K := by
  have h1 : createSpriteGridDataUrl JSNum.posInf (.num 1) Resolution.r1K = none := by
    with_unfolding_all rfl
  have h2 : (createSpriteGridDataUrl (.num 1) (.num 1) Resolution.r1K).isSome = true := by
    with_unfolding_all rfl
  refine ⟨rfl, h1, h2, fun h => ?_⟩
  rw [← h, h1] at h2
  exact Bool.noConfusion h2

/-- Claim C6 (amended): `createSpriteGridDataUrl` sanitizes each dimension with
`max(1, floor(value || 1))`: every finite nonzero value becomes
`max(1, floor(value))`, every value below 1 — including `0`, `NaN` and
`-Infinity` — becomes exactly `1`, but `+Infinity` passes through unclamped
(the subsequent grid-line loop then diverges).  `(0, -3, "1K")` behaves
identically to `(1, 1, "1K")`.  The float64 loop counter saturates at `2^53`,
so the interior-line loop also diverges whenever a sanitized dimension exceeds
`2^53` (e.g. rows = `10^60`, no output is produced); for inputs whose
sanitized dimensions stay at most `2^53` the output exists and its dimensions
follow the tier's long edge (1K→1024, 2K→2048, 4K→4096) and the ratio
`r = safeCols / safeRows`: when `r ≥ 1`, width = long edge and height =
`max(256, round(longEdge / r))`; otherwise width = `max(256, round(longEdge *
r))` and height = long edge. -/
theorem createSpriteGridDataUrl_sanitize_spec :
    (∀ q : ℚ, q ≠ 0 → gridSafeDim (.num q) = .num ((max 1 q.floor : ℤ) : ℚ)) ∧
    (∀ q : ℚ, q < 1 → gridSafeDim (.num q) = .num 1) ∧
    gridSafeDim JSNum.nan = .num 1 ∧
    gridSafeDim JSNum.negInf = .num 1 ∧
    gridSafeDim JSNum.posInf = JSNum.posInf ∧
    createSpriteGridDataUrl (.num 0) (.num (-3)) Resolution.r1K
      = createSpriteGridDataUrl (.num 1) (.num 1) Resolution.r1K ∧
    createSpriteGridDataUrl (.num (10 ^ 60)) (.num 1) Resolution.r1K = none ∧
    (∀ (qr qc : ℚ) (resolution : Resolution) (xr xc : ℚ),
      gridSafeDim (.num qr) = .num xr → gridSafeDim (.num qc) = .num xc →
      xr ≤ 2 ^ 53 → xc ≤ 2 ^ 53 →
      ∃ g, createSpriteGridDataUrl (.num qr) (.num qc) resolution = some g ∧
      (JSNum.jsLe (.num 1) (JSNum.jsDiv (gridSafeDim (.num qc)) (gridSafeDim (.num qr))) = true →
        g.width = .num (sizeByResolution resolution) ∧
        g.height = JSNum.jsMax (.num 256)
          (JSNum.jsRound (JSNum.jsDiv (.num (sizeByResolution resolution))
            (JSNum.jsDiv (gridSafeDim (.num qc)) (gridSafeDim (.num qr)))))) ∧
      (JSNum.jsLe (.num 1) (JSNum.jsDiv (gridSafeDim (.num qc)) (gridSafeDim (.num qr))) = false →
        g.width = JSNum.jsMax (.num 256)
          (JSNum.jsRound (JSNum.jsMul (.num (sizeByResolution resolution))
            (JSNum.jsDiv (gridSafeDim (.num qc)) (gridSafeDim (.num qr))))) ∧
        g.height = .num (sizeByResolution resolution))) := by
  refine ⟨gridSafeDim_num, ?_, by decide, by decide, rfl, by with_unfolding_all rfl,
          by with_unfolding_all rfl, ?_⟩
  · intro q hq
    by_cases hq0 : q = 0
    · subst hq0
      with_unfolding_all rfl
    · rw [gridSafeDim_num q hq0]
      have hfloor : q.floor ≤ 0 := by
        by_contra hpos
        have h1 : (1 : ℤ) ≤ q.floor := by omega
        have : (1 : ℚ) ≤ q := Rat.le_floor.mp h1
        linarith
      have : max 1 q.floor = 1 := by omega
      rw [this]
      norm_num
  · intro qr qc resolution xr xc hr hc hxr hxc
    have hnr : ¬ ((2 : ℚ) ^ 53 < xr) := not_lt.mpr hxr
    have hnc : ¬ ((2 : ℚ) ^ 53 < xc) := not_lt.mpr hxc
    simp only [createSpriteGridDataUrl, hr, hc, jsLoopCount, hnr, hnc, if_false]
    refine ⟨_, rfl, ?_, ?_⟩
    · intro hle
      simp [hle]
    · intro hle
      simp [hle]

/-- Witness for C6 (amended): the finite-nonzero sanitization rule applied at
rows = 7. -/
theorem createSpriteGridDataUrl_sanitize_spec_witness :
    gridSafeDim (.num 7) = .num ((max 1 (7 : ℚ).floor : ℤ) : ℚ) :=
  createSpriteGridDataUrl_sanitize_spec.1 7 (by norm_num)

/- ## Claim C7 -/

/-- Claim C7: `createSpriteGridDataUrl` is deterministic — it is a pure
function of `(rows, cols, resolution)` alone (the embedding has no other
inputs: no clock, randomness, or ambient state), so two calls with equal
arguments produce identical encoded output. -/
theorem createSpriteGridDataUrl_deterministic :
    ∀ (rowsA colsA : JSNum) (resolutionA : Resolution)
      (rowsB colsB : JSNum) (resolutionB : Resolution),
      rowsA = rowsB → colsA = colsB → resolutionA = resolutionB →
      createSpriteGridDataUrl rowsA colsA resolutionA
        = createSpriteGridDataUrl rowsB colsB resolutionB := by
  intro rowsA colsA resolutionA rowsB colsB resolutionB h1 h2 h3
  rw [h1, h2, h3]

/-- Witness for C7: the two identically-parameterised calls at `(2, 3, "2K")`
coincide. -/
theorem createSpriteGridDataUrl_deterministic_witness :
    createSpriteGridDataUrl (.num 2) (.num 3) Resolution.r2K
      = createSpriteGridDataUrl (.num 2) (.num 3) Resolution.r2K :=
  createSpriteGridDataUrl_deterministic (.num 2) (.num 3) Resolution.r2K
    (.num 2) (.num 3) Resolution.r2K rfl rfl rfl

/- ## Claim C8 -/

/-- Fixture: a sprite-mode Generate child with rows=2, cols=2, tier 1K and no
stored seed image. -/
def genChild22 : Child :=
  { id := "g1", type := ChildType.generate, mode := ChildMode.sprite,
    inputs := { rows := some (.num 2), cols := some (.num 2), resolution := some Resolution.r1K } }

/-- Fixture project holding only `genChild22`. -/
def project22 : Project :=
  { id := "p4", name := "proj", children := [genChild22] }

/-- Claim C8: the generate source of truth is the explicitly selected child
when that child is generate-typed and otherwise the latest Generate child; the
reconciled draft takes sprite-mode flag, rows, cols, resolution and the text
fields from that source; whenever the source is in sprite mode with no stored
seed image, the draft's seed equals the synthesized grid for the resolved
rows/cols/resolution.  For a project whose single Generate child has rows=2,
cols=2, tier 1K and no stored seed, the draft carries rows=2, cols=2, 1K and
the seed `createSpriteGridDataUrl(2, 2, "1K")`. -/
theorem resolveGenerateDraft_spec :
    (∀ (project : Project) (child : Child), child.type = ChildType.generate →
      generateSourceOf project (some child) = some child) ∧
    (∀ (project : Project) (child : Child), child.type ≠ ChildType.generate →
      generateSourceOf project (some child) = latestGenerateChild project.children) ∧
    (∀ project : Project, generateSourceOf project none = latestGenerateChild project.children) ∧
    (∀ (project : Project) (selectedChild : Option Child) (g : Child),
      generateSourceOf project selectedChild = some g →
      ∀ d, resolveGenerateDraft project selectedChild = some d →
        d.spriteMode = decide (g.mode = ChildMode.sprite) ∧
        d.rows = draftRows g ∧
        d.cols = draftCols g ∧
        d.resolution = safeResolution g.inputs.resolution ∧
        d.objectDescription = g.inputs.objectDescription.getD "" ∧
        d.style = g.inputs.style.getD "" ∧
        d.cameraAngle = g.inputs.cameraAngle.getD "" ∧
        d.promptText = g.inputs.promptText.getD "" ∧
        (g.mode = ChildMode.sprite → g.inputs.imagePriorDataUrl = none →
          ∃ render,
            createSpriteGridDataUrl (draftRows g) (draftCols g) (safeResolution g.inputs.resolution)
              = some render ∧
            d.imagePriorDataUrl = some (DataUrl.png render))) ∧
    (∃ d, resolveGenerateDraft project22 (some genChild22) = some d ∧
      d.rows = .num 2 ∧ d.cols = .num 2 ∧ d.resolution = Resolution.r1K ∧
      d.imagePriorDataUrl = (createSpriteGridDataUrl (.num 2) (.num 2) Resolution.r1K).map DataUrl.png) := by
  refine ⟨?_, ?_, ?_, ?_, ?_⟩
  · intro project child h
    simp [generateSourceOf, h]
  · intro project child h
    simp [generateSourceOf, h]
  · intro project
    rfl
  · intro project selectedChild g hg d hd
    simp only [resolveGenerateDraft, hg] at hd
    by_cases hcond : g.mode = ChildMode.sprite ∧ isFalsyDataUrl g.inputs.imagePriorDataUrl = true
    · rw [if_pos hcond] at hd
      simp only [Option.map_eq_some'] at hd
      obtain ⟨ipd, hex, hd⟩ := hd
      obtain ⟨render, hrender, hipd⟩ := hex
      subst hipd
      subst hd
      refine ⟨rfl, rfl, rfl, rfl, rfl, rfl, rfl, rfl, fun _ _ => ⟨render, hrender, rfl⟩⟩
    · rw [if_neg hcond] at hd
      simp only [Option.map_eq_some'] at hd
      obtain ⟨ipd, hipd, hd⟩ := hd
      injection hipd with hipd
      subst hd
      subst hipd
      refine ⟨rfl, rfl, rfl, rfl, rfl, rfl, rfl, rfl, fun hm hp => ?_⟩
      exact absurd ⟨hm, by rw [hp]; rfl⟩ hcond
  · refine ⟨{ name := "proj", spriteMode := true, rows := .num 2, cols := .num 2,
              objectDescription := "", style := "", cameraAngle := "", promptText := "",
              resolution := Resolution.r1K,
              imagePriorDataUrl :=
                (createSpriteGridDataUrl (.num 2) (.num 2) Resolution.r1K).map DataUrl.png },
            ?_, rfl, rfl, rfl, rfl⟩
    with_unfolding_all rfl

/-- Witness for C8: the source-of-truth selection rule applied to the concrete
generate child. -/
theorem resolveGenerateDraft_spec_witness :
    generateSourceOf project22 (some genChild22) = some genChild22 :=
  resolveGenerateDraft_spec.1 project22 genChild22 rfl

/- ## Claim C9 -/

/-- Fixture: a sprite-mode generate child whose stored rows value is `NaN`. -/
def childNanRows : Child :=
  { id := "n1", type := ChildType.generate, mode := ChildMode.sprite,
    inputs := { rows := some JSNum.nan } }

/-- Counterexample to C9 as stated: a stored `NaN` rows value survives
reconciliation — `Math.max(1, NaN ?? 4) = NaN` because `??` only replaces
missing values and `Math.max` propagates NaN — so both the draft rows and the
preview rows become `NaN`, which is neither finite nor `≥ 1`. -/
theorem nan_rows_propagates_counterexample :
    draftRows childNanRows = JSNum.nan ∧
    previewRows (some childNanRows) = JSNum.nan ∧
    JSNum.nan.isFinite = false := by
  refine ⟨by decide, by decide, rfl⟩

/-- Claim C9 (amended): on every reconciliation, a missing stored rows/cols
value is defaulted (4 for the draft, 1 for the preview) and every finite
stored value is clamped to `max(1, value) ≥ 1`, so for missing or finite
stored values the derived rows/cols are finite and at least 1 and never 0 or
negative; however non-finite stored values are not coerced: a stored `NaN`
propagates as `NaN` and a stored `+Infinity` as `+Infinity`. -/
theorem reconciliation_rows_cols_clamping :
    (∀ g : Child, g.inputs.rows = none → draftRows g = .num 4) ∧
    (∀ g : Child, g.inputs.cols = none → draftCols g = .num 4) ∧
    (∀ (g : Child) (q : ℚ), g.inputs.rows = some (.num q) →
      draftRows g = .num (max 1 q) ∧ (1 : ℚ) ≤ max 1 q) ∧
    (∀ (g : Child) (q : ℚ), g.inputs.cols = some (.num q) →
      draftCols g = .num (max 1 q) ∧ (1 : ℚ) ≤ max 1 q) ∧
    (∀ previewChild : Option Child,
      (previewChild.bind fun child => child.inputs.rows) = none →
      previewRows previewChild = .num 1) ∧
    (∀ previewChild : Option Child,
      (previewChild.bind fun child => child.inputs.cols) = none →
      previewCols previewChild = .num 1) ∧
    (∀ (previewChild : Option Child) (q : ℚ),
      (previewChild.bind fun child => child.inputs.rows) = some (.num q) →
      previewRows previewChild = .num (max 1 q)) ∧
    (∀ (previewChild : Option Child) (q : ℚ),
      (previewChild.bind fun child => child.inputs.cols) = some (.num q) →
      previewCols previewChild = .num (max 1 q)) ∧
    (∀ g : Child, g.inputs.rows = some JSNum.nan → draftRows g = JSNum.nan) ∧
    (∀ g : Child, g.inputs.rows = some JSNum.posInf → draftRows g = JSNum.posInf) := by
  refine ⟨?_, ?_, ?_, ?_, ?_, ?_, ?_, ?_, ?_, ?_⟩
  · intro g h
    simp [draftRows, h, jsMax_num_num]
  · intro g h
    simp [draftCols, h, jsMax_num_num]
  · intro g q h
    simp [draftRows, h, jsMax_num_num, le_max_left]
  · intro g q h
    simp [draftCols, h, jsMax_num_num, le_max_left]
  · intro previewChild h
    simp [previewRows, h, jsMax_num_num]
  · intro previewChild h
    simp [previewCols, h, jsMax_num_num]
  · intro previewChild q h
    simp [previewRows, h, jsMax_num_num]
  · intro previewChild q h
    simp [previewCols, h, jsMax_num_num]
  · intro g h
    simp [draftRows, h, JSNum.jsMax]
  · intro g h
    simp [draftRows, h, JSNum.jsMax, JSNum.jsLe]

/-- Witness for C9 (amended): a missing stored rows value yields the draft
default 4. -/
theorem reconciliation_rows_cols_clamping_witness :
    draftRows childA = .num 4 :=
  reconciliation_rows_cols_clamping.1 childA rfl

/- ## Claim C10 -/

/-- `toPositiveInt` with fallback 1 — the call shape used for the `rows` and
`cols` props — always yields a positive integer. -/
theorem toPositiveInt_pos (value : JSNum) :
    ∃ n : ℕ, 1 ≤ n ∧ toPositiveInt value (.num 1) = .num (n : ℚ) := by
  cases value with
  | nan => exact ⟨1, le_refl 1, by norm_num [toPositiveInt, JSNum.isFinite]⟩
  | posInf => exact ⟨1, le_refl 1, by norm_num [toPositiveInt, JSNum.isFinite]⟩
  | negInf => exact ⟨1, le_refl 1, by norm_num [toPositiveInt, JSNum.isFinite]⟩
  | num q =>
      refine ⟨(max 1 q.floor).toNat, by omega, ?_⟩
      have hnn : (0 : ℤ) ≤ max 1 q.floor := le_trans zero_le_one (le_max_left 1 q.floor)
      simp only [toPositiveInt, JSNum.isFinite, if_true]
      show JSNum.jsMax (.num 1) (.num (q.floor : ℚ)) = _
      rw [jsMax_num_num]
      congr 1
      calc (1 : ℚ) ⊔ (q.floor : ℚ)
          = ((1 ⊔ q.floor : ℤ) : ℚ) := by push_cast; rfl
        _ = (((1 ⊔ q.floor).toNat : ℤ) : ℚ) := by rw [Int.toNat_of_nonneg hnn]
        _ = (((1 ⊔ q.floor).toNat : ℕ) : ℚ) := by push_cast; rfl

/-- Claim C10: the drawn frame is `frameIndex % totalFrames`; the sanitized
rows/cols coming out of `toPositiveInt` are positive integers, so
`totalFrames = safeRows * safeCols ≥ 1` in every reachable state; and for any
frame index whatsoever — including transient states where
`frameIndex ≥ totalFrames` before the reset effect runs — the blitted source
rectangle lies inside the decoded image whenever `imageWidth ≥ cols` and
`imageHeight ≥ rows`. -/
theorem drawFrameRect_in_bounds :
    (∀ rowsProp colsProp : JSNum, ∃ safeRows safeCols : ℕ,
      1 ≤ safeRows ∧ 1 ≤ safeCols ∧ 1 ≤ safeRows * safeCols ∧
      toPositiveInt rowsProp (.num 1) = .num (safeRows : ℚ) ∧
      toPositiveInt colsProp (.num 1) = .num (safeCols : ℚ)) ∧
    (∀ imageWidth imageHeight safeRows safeCols frameIndex : ℕ,
      drawFrameRect imageWidth imageHeight safeRows safeCols frameIndex
        = drawFrameRect imageWidth imageHeight safeRows safeCols
            (frameIndex % (safeRows * safeCols))) ∧
    (∀ imageWidth imageHeight safeRows safeCols frameIndex : ℕ,
      1 ≤ safeRows → 1 ≤ safeCols → safeCols ≤ imageWidth → safeRows ≤ imageHeight →
      (drawFrameRect imageWidth imageHeight safeRows safeCols frameIndex).frameX
          + (drawFrameRect imageWidth imageHeight safeRows safeCols frameIndex).frameWidth
        ≤ imageWidth ∧
      (drawFrameRect imageWidth imageHeight safeRows safeCols frameIndex).frameY
          + (drawFrameRect imageWidth imageHeight safeRows safeCols frameIndex).frameHeight
        ≤ imageHeight) := by
  refine ⟨?_, ?_, ?_⟩
  · intro rowsProp colsProp
    obtain ⟨r, hr1, hr⟩ := toPositiveInt_pos rowsProp
    obtain ⟨c, hc1, hc⟩ := toPositiveInt_pos colsProp
    exact ⟨r, c, hr1, hc1, Nat.one_le_iff_ne_zero.mpr (by positivity), hr, hc⟩
  · intro imageWidth imageHeight safeRows safeCols frameIndex
    simp [drawFrameRect, Nat.mod_mod_of_dvd]
  · intro imageWidth imageHeight safeRows safeCols frameIndex hr hc hcW hrH
    have hc0 : 0 < safeCols := hc
    have hr0 : 0 < safeRows := hr
    have hrc : 0 < safeRows * safeCols := Nat.mul_pos hr0 hc0
    have hfw : max 1 (imageWidth / safeCols) = imageWidth / safeCols :=
      Nat.max_eq_right ((Nat.one_le_div_iff hc0).mpr hcW)
    have hfh : max 1 (imageHeight / safeRows) = imageHeight / safeRows :=
      Nat.max_eq_right ((Nat.one_le_div_iff hr0).mpr hrH)
    have hframe : frameIndex % (safeRows * safeCols) < safeRows * safeCols :=
      Nat.mod_lt _ hrc
    constructor
    · show frameIndex % (safeRows * safeCols) % safeCols * max 1 (imageWidth / safeCols)
          + max 1 (imageWidth / safeCols) ≤ imageWidth
      rw [hfw]
      have h1 : frameIndex % (safeRows * safeCols) % safeCols + 1 ≤ safeCols :=
        Nat.succ_le_of_lt (Nat.mod_lt _ hc0)
      calc frameIndex % (safeRows * safeCols) % safeCols * (imageWidth / safeCols)
              + imageWidth / safeCols
          = (frameIndex % (safeRows * safeCols) % safeCols + 1) * (imageWidth / safeCols) := by
            ring
        _ ≤ safeCols * (imageWidth / safeCols) := Nat.mul_le_mul_right _ h1
        _ = imageWidth / safeCols * safeCols := Nat.mul_comm _ _
        _ ≤ imageWidth := Nat.div_mul_le_self imageWidth safeCols
    · show frameIndex % (safeRows * safeCols) / safeCols * max 1 (imageHeight / safeRows)
          + max 1 (imageHeight / safeRows) ≤ imageHeight
      rw [hfh]
      have h2 : frameIndex % (safeRows * safeCols) / safeCols + 1 ≤ safeRows := by
        have := (Nat.div_lt_iff_lt_mul hc0).mpr hframe
        omega
      calc frameIndex % (safeRows * safeCols) / safeCols * (imageHeight / safeRows)
              + imageHeight / safeRows
          = (frameIndex % (safeRows * safeCols) / safeCols + 1) * (imageHeight / safeRows) := by
            ring
        _ ≤ safeRows * (imageHeight / safeRows) := Nat.mul_le_mul_right _ h2
        _ = imageHeight / safeRows * safeRows := Nat.mul_comm _ _
        _ ≤ imageHeight := Nat.div_mul_le_self imageHeight safeRows

/-- Witness for C10: containment applied to the out-of-range transient frame
index 11 on the 2048×1024, 2×4 sheet. -/
theorem drawFrameRect_in_bounds_witness :
    (drawFrameRect 2048 1024 2 4 11).frameX + (drawFrameRect 2048 1024 2 4 11).frameWidth ≤ 2048 :=
  (drawFrameRect_in_bounds.2.2 2048 1024 2 4 11 (by decide) (by decide) (by decide) (by decide)).1
